import Mathlib

/-!
Verification of the easy-volume-compressor extension (settings store,
background messaging, key resolver, and audio-graph wiring), embedded
shallowly in Lean.  Numeric settings fields are modelled as rationals;
maps are modelled as association lists looked up by first match, which
matches the observable behaviour of JS object / `Map` stores.
-/

/-- First-match lookup in an association list keyed by strings
(the observable behaviour of `siteSettings[key]` / `Map.get`). -/
def lookupAssoc {α : Type} (st : List (String × α)) (k : String) : Option α :=
  (st.find? (fun e => e.1 == k)).map (fun e => e.2)

/-- Remove every binding of a key (the observable behaviour of
`delete siteSettings[key]` / `Map.delete` / `storage.local.remove`). -/
def removeAssoc {α : Type} (st : List (String × α)) (k : String) : List (String × α) :=
  st.filter (fun e => !(e.1 == k))

theorem lookupAssoc_cons_self {α : Type} (st : List (String × α)) (k : String) (v : α) :
    lookupAssoc ((k, v) :: st) k = some v := by
  simp [lookupAssoc, List.find?]

theorem lookupAssoc_removeAssoc_self {α : Type} (st : List (String × α)) (k : String) :
    lookupAssoc (removeAssoc st k) k = none := by
  induction st with
  | nil => rfl
  | cons e st ih =>
    by_cases h : e.1 == k
    · simp only [removeAssoc, List.filter, h] at ih ⊢
      exact ih
    · simp only [removeAssoc, List.filter, h] at ih ⊢
      simp only [lookupAssoc, List.find?, h, Bool.false_eq_true, cond_false] at ih ⊢
      exact ih

namespace SettingsManager

/-- `CompressorSettings` from `src/types.ts`: `enabled`, `threshold` (dB),
`ratio`, `attack` (ms), `release` (ms), `gain` (dB). -/
structure CompressorSettings where
  enabled : Bool
  threshold : ℚ
  ratio : ℚ
  attack : ℚ
  release : ℚ
  gain : ℚ
  deriving DecidableEq, Repr

/-- `DEFAULT_SETTINGS` from `src/types.ts`. -/
def DEFAULT_SETTINGS : CompressorSettings :=
  { enabled := true, threshold := -24, ratio := 4, attack := 5, release := 50, gain := 0 }

/-- One field of `SettingsManager.validateSettings`:
`Math.max(lo, Math.min(hi, Number(x) || d))`.  For a numeric `x`,
`Number(x) || d` is `d` when `x = 0` (zero is falsy in JS) and `x` otherwise. -/
def clampField (x d lo hi : ℚ) : ℚ :=
  max lo (min hi (if x = 0 then d else x))

/-- `SettingsManager.validateSettings` from the background settings manager. -/
def validateSettings (s : CompressorSettings) : CompressorSettings :=
  { enabled := s.enabled
    threshold := clampField s.threshold DEFAULT_SETTINGS.threshold (-100) 0
    ratio := clampField s.ratio DEFAULT_SETTINGS.ratio 1 20
    attack := clampField s.attack DEFAULT_SETTINGS.attack 0 100
    release := clampField s.release DEFAULT_SETTINGS.release 0 1000
    gain := clampField s.gain DEFAULT_SETTINGS.gain (-20) 20 }

/-- Store state: domain → settings.  `saveSettings` writes the validated
settings to durable storage and the cache together; a single map models
the two (they are updated atomically in `saveSettings`). -/
def saveSettings (st : List (String × CompressorSettings)) (domain : String)
    (s : CompressorSettings) : List (String × CompressorSettings) :=
  (domain, validateSettings s) :: st

/-- `SettingsManager.getSettings`: the stored record if present
(`result[domain] || DEFAULT_SETTINGS`), otherwise the defaults. -/
def getSettings (st : List (String × CompressorSettings)) (domain : String) :
    CompressorSettings :=
  (lookupAssoc st domain).getD DEFAULT_SETTINGS

/-- Every field of a settings object lies within its documented range. -/
def inRange (s : CompressorSettings) : Prop :=
  -100 ≤ s.threshold ∧ s.threshold ≤ 0 ∧
  1 ≤ s.ratio ∧ s.ratio ≤ 20 ∧
  0 ≤ s.attack ∧ s.attack ≤ 100 ∧
  0 ≤ s.release ∧ s.release ≤ 1000 ∧
  -20 ≤ s.gain ∧ s.gain ≤ 20

theorem clampField_mem (x d lo hi : ℚ) (h : lo ≤ hi) :
    lo ≤ clampField x d lo hi ∧ clampField x d lo hi ≤ hi := by
  refine ⟨le_max_left _ _, max_le h (min_le_left _ _)⟩

theorem clampField_fixed (x d lo hi : ℚ) (hlo : lo ≤ x) (hhi : x ≤ hi) (hx : x ≠ 0) :
    clampField x d lo hi = x := by
  simp [clampField, hx, min_eq_right hhi, max_eq_right hlo]

/-- A twice-clamped field is a fixed point of the clamp. -/
theorem clampField_idem_from_two (x d lo hi : ℚ) (h : lo ≤ hi) :
    clampField (clampField (clampField x d lo hi) d lo hi) d lo hi
      = clampField (clampField x d lo hi) d lo hi := by
  set y := clampField x d lo hi with hy
  obtain ⟨hylo, hyhi⟩ := clampField_mem x d lo hi h
  rw [← hy] at hylo hyhi
  by_cases hy0 : y = 0
  · -- second clamp replaces the zero with the clamped default
    have hz : clampField y d lo hi = max lo (min hi d) := by
      simp [clampField, hy0]
    by_cases hc0 : max lo (min hi d) = 0
    · rw [hz, hc0]
      simp [clampField, hc0]
    · rw [hz]
      exact clampField_fixed _ d lo hi (le_max_left _ _)
        (max_le h (min_le_left _ _)) hc0
  · simp only [clampField_fixed y d lo hi hylo hyhi hy0]

theorem validateSettings_inRange (s : CompressorSettings) :
    inRange (validateSettings s) := by
  refine ⟨?_, ?_, ?_, ?_, ?_, ?_, ?_, ?_, ?_, ?_⟩ <;>
    first
      | exact (clampField_mem _ _ _ _ (by norm_num)).1
      | exact (clampField_mem _ _ _ _ (by norm_num)).2

theorem validateSettings_two_idem (s : CompressorSettings) :
    validateSettings (validateSettings (validateSettings s))
      = validateSettings (validateSettings s) := by
  unfold validateSettings
  simp only [CompressorSettings.mk.injEq]
  refine ⟨trivial, ?_, ?_, ?_, ?_, ?_⟩ <;>
    exact clampField_idem_from_two _ _ _ _ (by norm_num)

end SettingsManager

namespace Background

/-- `DEFAULT_SETTINGS` of the background script `background.js`:
`enabled`, `ratio`, `threshold` (dB), `attack` (seconds),
`release` (seconds), `outputGain` (dB). -/
structure Settings where
  enabled : Bool
  ratio : ℚ
  threshold : ℚ
  attack : ℚ
  release : ℚ
  outputGain : ℚ
  deriving DecidableEq, Repr

/-- A settings object as carried in messages and stored in `siteSettings`:
arbitrary JS objects, so each field may be absent. -/
structure StoredSettings where
  enabled : Option Bool
  ratio : Option ℚ
  threshold : Option ℚ
  attack : Option ℚ
  release : Option ℚ
  outputGain : Option ℚ
  deriving DecidableEq, Repr

def DEFAULT_SETTINGS : Settings :=
  { enabled := true, ratio := 4, threshold := -20, attack := 0.003,
    release := 0.25, outputGain := 0 }

/-- The spread `{ ...DEFAULT_SETTINGS, ...stored }`: every field present in
the stored object wins, every absent field comes from the defaults. -/
def mergeDefaults (p : StoredSettings) : Settings :=
  { enabled := p.enabled.getD DEFAULT_SETTINGS.enabled
    ratio := p.ratio.getD DEFAULT_SETTINGS.ratio
    threshold := p.threshold.getD DEFAULT_SETTINGS.threshold
    attack := p.attack.getD DEFAULT_SETTINGS.attack
    release := p.release.getD DEFAULT_SETTINGS.release
    outputGain := p.outputGain.getD DEFAULT_SETTINGS.outputGain }

/-- In-memory `siteSettings` map of the background script. -/
def SiteSettings : Type := List (String × StoredSettings)

/-- `GET_SETTINGS` handler: the stored record for the key merged over the
defaults when present, the defaults otherwise. -/
def getSettingsHandler (st : SiteSettings) (key : String) : Settings :=
  match lookupAssoc st key with
  | some p => mergeDefaults p
  | none => DEFAULT_SETTINGS

/-- Response shape of the `UPDATE_SETTINGS` handler on its main path:
`{ success: true }` or `{ success: true, warning: ... }`. -/
structure UpdateResponse where
  success : Bool
  warning : Option String
  deriving DecidableEq, Repr

/-- `UPDATE_SETTINGS` handler (key, settings and tabId present): stores the
incoming settings in `siteSettings`, persists, then tries to push a
`SETTINGS_UPDATED` message to the tab.  `pushOk` is the outcome of
`browser.tabs.sendMessage`: when it rejects (tab gone, no listener) the
handler still answers `success: true` with a warning. -/
def updateSettingsHandler (st : SiteSettings) (key : String)
    (s : StoredSettings) (pushOk : Bool) : SiteSettings × UpdateResponse :=
  let st' : SiteSettings := (key, s) :: st
  (st', if pushOk then { success := true, warning := none }
        else { success := true, warning := some "Could not notify content script" })

/-- Response shape of the `RESET_SETTINGS` handler on its main path. -/
structure ResetResponse where
  settings : Settings
  warning : Option String
  deriving DecidableEq, Repr

/-- `RESET_SETTINGS` handler: removes the key from `siteSettings`, persists
the removal, pushes a `SETTINGS_UPDATED` message carrying the defaults to
the tab, and responds with the defaults.  The second component is the
settings payload of the pushed `SETTINGS_UPDATED` notification. -/
def resetSettingsHandler (st : SiteSettings) (key : String) (pushOk : Bool) :
    SiteSettings × Settings × ResetResponse :=
  let st' := removeAssoc st key
  (st', DEFAULT_SETTINGS,
    if pushOk then { settings := DEFAULT_SETTINGS, warning := none }
    else { settings := DEFAULT_SETTINGS, warning := some "Could not notify content script" })

/-- The synthetic per-tab key `tab-` followed by the tab id, as built both
by the popup fallback and by the `tabs.onRemoved` listener. -/
def tabKey (tabId : ℕ) : String := "tab-" ++ toString tabId

/-- Background state with the in-memory cache and the durable
`storage.local` document (under the fixed `siteSettings` storage key)
kept separately. -/
structure BgState where
  cache : SiteSettings
  storage : SiteSettings

/-- The `tabs.onRemoved` listener: when the cache holds an entry under
`tab-<id>`, delete it and persist the whole map (`saveSettingsToStorage`
writes the current cache to durable storage); otherwise do nothing. -/
def onTabRemoved (tabId : ℕ) (st : BgState) : BgState :=
  if (lookupAssoc st.cache (tabKey tabId)).isSome then
    let c := removeAssoc st.cache (tabKey tabId)
    { cache := c, storage := c }
  else st

end Background

namespace ContentJS

/-- Connection state of one media element's node chain in `content.js`:
whether `source` is connected directly to `audioContext.destination`
(bypass path), whether `gainNode` is connected to the destination
(compressor path), and the stored `connected` flag. -/
structure ChainState where
  sourceToDest : Bool
  gainToDest : Bool
  connected : Bool
  deriving DecidableEq, Repr

/-- `setupAudioProcessing`: after building `source → compressor → gain →
analyzer`, connects `gainNode` to the destination when `settings.enabled`
and `source` directly to the destination otherwise, and records
`connected: settings.enabled`. -/
def setupAudioProcessing (enabled : Bool) : ChainState :=
  { sourceToDest := !enabled, gainToDest := enabled, connected := enabled }

/-- The per-element enable/disable re-wiring step of `updateAllCompressors`:
on enabling, disconnect the direct connection then connect the gain node;
on disabling, disconnect the gain node then connect the source directly;
otherwise leave the wiring alone. -/
def updateAllCompressors (enabled : Bool) (c : ChainState) : ChainState :=
  if enabled && !c.connected then
    { sourceToDest := false, gainToDest := true, connected := true }
  else if !enabled && c.connected then
    { sourceToDest := true, gainToDest := false, connected := false }
  else c

/-- Number of paths currently connected to the destination. -/
def connectionCount (c : ChainState) : ℕ :=
  (if c.sourceToDest then 1 else 0) + (if c.gainToDest then 1 else 0)

/-- The chain state after attaching with initial enabled flag `e0` and then
applying the settings updates `ts` (the `enabled` value of each
`SETTINGS_UPDATED` message) in order. -/
def runToggles (e0 : Bool) (ts : List Bool) : ChainState :=
  ts.foldl (fun c e => updateAllCompressors e c) (setupAudioProcessing e0)

theorem updateAllCompressors_count (e : Bool) (c : ChainState)
    (h : connectionCount c = 1) : connectionCount (updateAllCompressors e c) = 1 := by
  cases c with
  | mk s g k =>
    cases e <;> cases s <;> cases g <;> cases k <;>
      simp_all [updateAllCompressors, connectionCount]

/-- One media element as seen by `sendLevelData`: its `paused` flag, the
decibel level computed from its analyzer buffer (`20·log10(max(rms,0.001))`,
taken as an abstract input here), and the raw `compressor.reduction`
value (non-positive in the Web Audio API, but not assumed so). -/
structure MediaElem where
  paused : Bool
  level : ℚ
  reduction : ℚ
  deriving DecidableEq, Repr

/-- Payload of a `METER_UPDATE` message. -/
structure MeterMsg where
  level : ℚ
  reduction : ℚ
  deriving DecidableEq, Repr

/-- One iteration of the `mediaElements.forEach` loop in `sendLevelData`:
skip paused elements; otherwise raise the running maximum level (the
`Option` is `none` while `maxLevel` is still `-Infinity`), raise the
running maximum of `Math.abs(compressor.reduction)`, and mark that an
active element was seen. -/
def meterStep (acc : Option ℚ × ℚ × Bool) (e : MediaElem) : Option ℚ × ℚ × Bool :=
  if e.paused then acc
  else
    (some (match acc.1 with
           | none => e.level
           | some m => max m e.level),
     max acc.2.1 |e.reduction|, true)

/-- `sendLevelData`: returns the `METER_UPDATE` payload sent for this tick,
or `none` when no message is sent.  Guard: nothing is sent when the popup
is closed or no analyzer exists; after the loop, a message is sent only if
some element was playing, with `-60` substituted when `maxLevel` stayed at
`-Infinity`. -/
def sendLevelData (isPopupOpen : Bool) (es : List MediaElem) : Option MeterMsg :=
  if !isPopupOpen || es.isEmpty then none
  else
    let r := es.foldl meterStep (none, 0, false)
    if r.2.2 then some { level := r.1.getD (-60), reduction := r.2.1 } else none

end ContentJS

namespace Popup

/-- A page address as the popup sees it: the raw URL string together with
the hostname its successful parse (`new URL(url).hostname`) yields. -/
structure Url where
  raw : String
  hostname : String
  deriving DecidableEq, Repr

/-- JS `String.prototype.startsWith`, as a test on the character
sequences of the two strings. -/
def jsStartsWith (s p : String) : Bool :=
  p.data.isPrefixOf s.data

/-- `getKeyFromUrl` from `popup.js`: addresses not starting with `http:` or
`https:` map to the full URL when they start with `file:` and to `null`
otherwise; `http:`/`https:` addresses map to their hostname. -/
def getKeyFromUrl (u : Url) : Option String :=
  if !(jsStartsWith u.raw "http:") && !(jsStartsWith u.raw "https:") then
    if jsStartsWith u.raw "file:" then some u.raw else none
  else some u.hostname

/-- The `DOMContentLoaded` fallback: when `getKeyFromUrl` yields `null`,
the popup uses the synthetic per-tab key `tab-<activeTabId>`. -/
def resolveSettingsKey (u : Url) (tabId : ℕ) : String :=
  (getKeyFromUrl u).getD (Background.tabKey tabId)

end Popup

namespace ContentTS

/-- State of `AudioCompressor` in `src/content/index.ts` after audio-context
initialization, restricted to the parts the attach/detach protocol uses:
the `mediaElements` map (keys only; element identities as naturals) and the
`disconnectedElements` weak set. -/
structure ACState where
  mediaElements : List ℕ
  disconnectedElements : List ℕ
  deriving DecidableEq, Repr

/-- `attachCompressor` (with the context initialized): skips elements
already present in `mediaElements`, otherwise creates a source node and
records the element in `mediaElements`.  The `disconnectedElements` set is
not consulted. -/
def attachCompressor (e : ℕ) (st : ACState) : ACState :=
  if st.mediaElements.contains e then st
  else { st with mediaElements := e :: st.mediaElements }

/-- `detachCompressor`: when the element is in `mediaElements`, disconnect
its source, delete it from `mediaElements`, and add it to
`disconnectedElements`; otherwise do nothing. -/
def detachCompressor (e : ℕ) (st : ACState) : ACState :=
  if st.mediaElements.contains e then
    { mediaElements := st.mediaElements.filter (fun x => !(x == e))
      disconnectedElements := e :: st.disconnectedElements }
  else st

/-- The events the mutation observer and error listener feed to the
manager: an element inserted into the document (attach) or removed from
it / raising a playback error (detach). -/
inductive ACEvent where
  | attach (e : ℕ)
  | detach (e : ℕ)
  deriving DecidableEq, Repr

def step (st : ACState) (ev : ACEvent) : ACState :=
  match ev with
  | .attach e => attachCompressor e st
  | .detach e => detachCompressor e st

def run (evs : List ACEvent) (st : ACState) : ACState :=
  evs.foldl step st

theorem step_detached_mono (ev : ACEvent) (st : ACState) (e : ℕ)
    (h : st.disconnectedElements.contains e = true) :
    (step st ev).disconnectedElements.contains e = true := by
  cases ev with
  | attach a =>
    simp only [step, attachCompressor]
    split <;> exact h
  | detach a =>
    simp only [step, detachCompressor]
    split
    · simp only [List.contains_cons, h, Bool.or_true]
    · exact h

theorem run_detached_mono (evs : List ACEvent) (st : ACState) (e : ℕ)
    (h : st.disconnectedElements.contains e = true) :
    (run evs st).disconnectedElements.contains e = true := by
  induction evs generalizing st with
  | nil => exact h
  | cons ev evs ih => exact ih (step st ev) (step_detached_mono ev st e h)

end ContentTS

namespace ContentJS

theorem meter_act (es : List MediaElem) (acc : Option ℚ × ℚ × Bool) :
    (es.foldl meterStep acc).2.2 = (acc.2.2 || es.any (fun e => !e.paused)) := by
  induction es generalizing acc with
  | nil => simp
  | cons e es ih =>
    by_cases hp : e.paused <;>
      simp [List.foldl_cons, meterStep, hp, ih, List.any_cons, Bool.or_assoc]

theorem meter_red_mono (es : List MediaElem) (acc : Option ℚ × ℚ × Bool) :
    acc.2.1 ≤ (es.foldl meterStep acc).2.1 := by
  induction es generalizing acc with
  | nil => exact le_refl _
  | cons e es ih =>
    by_cases hp : e.paused
    · simpa [List.foldl_cons, meterStep, hp] using ih acc
    · calc acc.2.1 ≤ max acc.2.1 |e.reduction| := le_max_left _ _
        _ ≤ _ := by
          simpa [List.foldl_cons, meterStep, hp] using
            ih (some (match acc.1 with | none => e.level | some m => max m e.level),
                max acc.2.1 |e.reduction|, true)

theorem meter_red_ub (es : List MediaElem) (acc : Option ℚ × ℚ × Bool)
    (e : MediaElem) (he : e ∈ es) (hp : e.paused = false) :
    |e.reduction| ≤ (es.foldl meterStep acc).2.1 := by
  induction es generalizing acc with
  | nil => cases he
  | cons a es ih =>
    rcases List.mem_cons.mp he with rfl | hmem
    · calc |e.reduction| ≤ max acc.2.1 |e.reduction| := le_max_right _ _
        _ ≤ _ := by
          simpa [List.foldl_cons, meterStep, hp] using
            meter_red_mono es
              (some (match acc.1 with | none => e.level | some m => max m e.level),
               max acc.2.1 |e.reduction|, true)
    · by_cases hpa : a.paused <;>
        simpa [List.foldl_cons, meterStep, hpa] using ih _ hmem

theorem meter_red_mem (es : List MediaElem) (acc : Option ℚ × ℚ × Bool) :
    (es.foldl meterStep acc).2.1 = acc.2.1 ∨
      ∃ e ∈ es, e.paused = false ∧ (es.foldl meterStep acc).2.1 = |e.reduction| := by
  induction es generalizing acc with
  | nil => exact Or.inl rfl
  | cons a es ih =>
    by_cases hpa : a.paused
    · rcases ih acc with h | ⟨e, hmem, hp, hv⟩
      · left
        simpa [List.foldl_cons, meterStep, hpa] using h
      · right
        exact ⟨e, List.mem_cons_of_mem a hmem, hp, by
          simpa [List.foldl_cons, meterStep, hpa] using hv⟩
    · set acc' : Option ℚ × ℚ × Bool :=
        (some (match acc.1 with | none => a.level | some m => max m a.level),
         max acc.2.1 |a.reduction|, true) with hacc'
      have hstep : (a :: es).foldl meterStep acc = es.foldl meterStep acc' := by
        simp [List.foldl_cons, meterStep, hpa, hacc']
      rcases ih acc' with h | ⟨e, hmem, hp, hv⟩
      · rcases max_choice acc.2.1 |a.reduction| with hmax | hmax
        · left
          rw [hstep, h, hacc', hmax]
        · right
          exact ⟨a, List.mem_cons_self a es, Bool.not_eq_true _ ▸ by
            simpa using hpa, by rw [hstep, h, hacc', hmax]⟩
      · right
        exact ⟨e, List.mem_cons_of_mem a hmem, hp, by rw [hstep]; exact hv⟩

theorem meter_lvl_mono (es : List MediaElem) (acc : Option ℚ × ℚ × Bool) (v : ℚ)
    (h : acc.1 = some v) :
    ∃ w, (es.foldl meterStep acc).1 = some w ∧ v ≤ w := by
  induction es generalizing acc v with
  | nil => exact ⟨v, h, le_refl v⟩
  | cons a es ih =>
    by_cases hpa : a.paused
    · have := ih acc v h
      simpa [List.foldl_cons, meterStep, hpa] using this
    · set acc' : Option ℚ × ℚ × Bool :=
        (some (match acc.1 with | none => a.level | some m => max m a.level),
         max acc.2.1 |a.reduction|, true) with hacc'
      have h1 : acc'.1 = some (max v a.level) := by
        simp [hacc', h]
      obtain ⟨w, hw, hvw⟩ := ih acc' (max v a.level) h1
      refine ⟨w, ?_, le_trans (le_max_left _ _) hvw⟩
      simpa [List.foldl_cons, meterStep, hpa, hacc'] using hw

theorem meter_lvl_ub (es : List MediaElem) (acc : Option ℚ × ℚ × Bool)
    (e : MediaElem) (he : e ∈ es) (hp : e.paused = false) :
    ∃ w, (es.foldl meterStep acc).1 = some w ∧ e.level ≤ w := by
  induction es generalizing acc with
  | nil => cases he
  | cons a es ih =>
    rcases List.mem_cons.mp he with rfl | hmem
    · set acc' : Option ℚ × ℚ × Bool :=
        (some (match acc.1 with | none => e.level | some m => max m e.level),
         max acc.2.1 |e.reduction|, true) with hacc'
      have h1 : ∃ v, acc'.1 = some v ∧ e.level ≤ v := by
        cases hoc : acc.1 with
        | none => exact ⟨e.level, by simp [hacc', hoc], le_refl _⟩
        | some m => exact ⟨max m e.level, by simp [hacc', hoc], le_max_right _ _⟩
      obtain ⟨v, hv, hev⟩ := h1
      obtain ⟨w, hw, hvw⟩ := meter_lvl_mono es acc' v hv
      refine ⟨w, ?_, le_trans hev hvw⟩
      simpa [List.foldl_cons, meterStep, hp, hacc'] using hw
    · by_cases hpa : a.paused
      · have := ih acc hmem
        simpa [List.foldl_cons, meterStep, hpa] using this
      · have := ih
          (some (match acc.1 with | none => a.level | some m => max m a.level),
           max acc.2.1 |a.reduction|, true) hmem
        simpa [List.foldl_cons, meterStep, hpa] using this

theorem meter_lvl_mem (es : List MediaElem) (acc : Option ℚ × ℚ × Bool) (w : ℚ)
    (h : (es.foldl meterStep acc).1 = some w) :
    (∃ v, acc.1 = some v ∧ w = v) ∨
      ∃ e ∈ es, e.paused = false ∧ w = e.level := by
  induction es generalizing acc with
  | nil => exact Or.inl ⟨w, h, rfl⟩
  | cons a es ih =>
    by_cases hpa : a.paused
    · have h' : (es.foldl meterStep acc).1 = some w := by
        simpa [List.foldl_cons, meterStep, hpa] using h
      rcases ih acc h' with hl | ⟨e, hmem, hp, hv⟩
      · exact Or.inl hl
      · exact Or.inr ⟨e, List.mem_cons_of_mem a hmem, hp, hv⟩
    · set acc' : Option ℚ × ℚ × Bool :=
        (some (match acc.1 with | none => a.level | some m => max m a.level),
         max acc.2.1 |a.reduction|, true) with hacc'
      have h' : (es.foldl meterStep acc').1 = some w := by
        simpa [List.foldl_cons, meterStep, hpa, hacc'] using h
      have hana : a.paused = false := by simpa using hpa
      rcases ih acc' h' with ⟨v, hv, hwv⟩ | ⟨e, hmem, hp, hv⟩
      · cases hoc : acc.1 with
        | none =>
          have : v = a.level := by
            rw [hacc'] at hv
            simp [hoc] at hv
            exact hv.symm
          exact Or.inr ⟨a, List.mem_cons_self a es, hana, by rw [hwv, this]⟩
        | some m =>
          have hvm : v = max m a.level := by
            rw [hacc'] at hv
            simp [hoc] at hv
            exact hv.symm
          rcases max_choice m a.level with hmax | hmax
          · exact Or.inl ⟨m, rfl, by rw [hwv, hvm, hmax]⟩
          · exact Or.inr ⟨a, List.mem_cons_self a es, hana, by rw [hwv, hvm, hmax]⟩
      · exact Or.inr ⟨e, List.mem_cons_of_mem a hmem, hp, hv⟩

end ContentJS


/-- C1 counterexample: the claim includes `clamp(clamp(s)) = clamp(s)` for
every settings object.  For `attack = -5` (out of range) the first clamp
yields `attack = 0`; the second clamp treats the numeric `0` as absent
(`Number(0) || 5` is falsy) and replaces it with the default `5`, so a
second clamp changes the record. -/
theorem C1_counterexample :
    SettingsManager.validateSettings (SettingsManager.validateSettings
      { enabled := true, threshold := -24, ratio := 4, attack := -5,
        release := 50, gain := 0 })
      ≠ SettingsManager.validateSettings
      { enabled := true, threshold := -24, ratio := 4, attack := -5,
        release := 50, gain := 0 } := by
  decide

/-- C1 (amended): `put(k, s)` followed by `get(k)` returns `s` with every
field clamped into its documented range (threshold into `[-100,0]`, ratio
into `[1,20]`, attack into `[0,100]`, release into `[0,1000]`, gain into
`[-20,20]`), but the clamp is idempotent only from the second application
onward (`clamp(clamp(clamp(s))) = clamp(clamp(s))`): a single clamp is not
idempotent, because a clamped field equal to `0` is replaced by its
default on the next clamp. -/
theorem C1_put_get_clamped (st : List (String × SettingsManager.CompressorSettings))
    (k : String) (s : SettingsManager.CompressorSettings) :
    SettingsManager.inRange (SettingsManager.validateSettings s) ∧
    SettingsManager.getSettings (SettingsManager.saveSettings st k s) k
      = SettingsManager.validateSettings s ∧
    SettingsManager.validateSettings (SettingsManager.validateSettings
        (SettingsManager.validateSettings s))
      = SettingsManager.validateSettings (SettingsManager.validateSettings s) := by
  refine ⟨SettingsManager.validateSettings_inRange s, ?_,
    SettingsManager.validateSettings_two_idem s⟩
  simp [SettingsManager.getSettings, SettingsManager.saveSettings,
    lookupAssoc_cons_self]

/-- C2: for an attached media element, after `setupAudioProcessing` with any
initial `enabled` flag and any sequence of enable/disable toggles applied by
`updateAllCompressors`, exactly one of the bypass path (source →
destination) and the compressor path (gain node → destination) is connected
— never both, never neither.  Every intermediate observable state is the
result for some prefix of the toggle sequence, so the invariant holds at
every point. -/
theorem C2_single_audio_path (e0 : Bool) (ts : List Bool) :
    ContentJS.connectionCount (ContentJS.runToggles e0 ts) = 1 := by
  have h0 : ContentJS.connectionCount (ContentJS.setupAudioProcessing e0) = 1 := by
    cases e0 <;> rfl
  suffices h : ∀ (l : List Bool) (c : ContentJS.ChainState),
      ContentJS.connectionCount c = 1 →
      ContentJS.connectionCount
        (l.foldl (fun c e => ContentJS.updateAllCompressors e c) c) = 1 by
    exact h ts _ h0
  intro l
  induction l with
  | nil => exact fun c hc => hc
  | cons e l ih =>
    exact fun c hc => ih _ (ContentJS.updateAllCompressors_count e c hc)

/-- C3 counterexample: the claim says a detached element is never attached
again.  In the trace attach 0, detach 0, attach 0 (the element is removed
from the document and later re-inserted), the final `attachCompressor`
re-adds element 0 to `mediaElements` even though it is a member of
`disconnectedElements`, because `attachCompressor` only checks
`mediaElements.has`. -/
theorem C3_counterexample :
    (ContentTS.run [ContentTS.ACEvent.attach 0, ContentTS.ACEvent.detach 0,
        ContentTS.ACEvent.attach 0]
      { mediaElements := [], disconnectedElements := [] }).mediaElements.contains 0
        = true ∧
    (ContentTS.run [ContentTS.ACEvent.attach 0, ContentTS.ACEvent.detach 0,
        ContentTS.ACEvent.attach 0]
      { mediaElements := [], disconnectedElements := [] }).disconnectedElements.contains 0
        = true := by
  decide

/-- C3 (amended): membership in the `disconnectedElements` tracking set is
permanent — no sequence of attach/detach events ever removes an element
from it — but the set is not consulted by `attachCompressor`, which skips
only elements currently present in `mediaElements`; a detached element
that is re-inserted into the document is therefore attached again. -/
theorem C3_detached_set_permanent :
    (∀ (st : ContentTS.ACState) (e : ℕ) (evs : List ContentTS.ACEvent),
        st.disconnectedElements.contains e = true →
        (ContentTS.run evs st).disconnectedElements.contains e = true) ∧
    (∀ (st : ContentTS.ACState) (e : ℕ),
        st.mediaElements.contains e = false →
        (ContentTS.attachCompressor e st).mediaElements.contains e = true) := by
  constructor
  · intro st e evs h
    exact ContentTS.run_detached_mono evs st e h
  · intro st e h
    have h' : e ∉ st.mediaElements := by simpa using h
    simp [ContentTS.attachCompressor, h']

/-- C3 witness: the amended theorem applied at a concrete state — element 5
already detached stays detached across an event, and an element not
currently attached is (re-)attached by `attachCompressor`. -/
theorem C3_witness :
    (ContentTS.run [ContentTS.ACEvent.attach 7]
      { mediaElements := [], disconnectedElements := [5] }).disconnectedElements.contains 5
        = true ∧
    (ContentTS.attachCompressor 5
      { mediaElements := [], disconnectedElements := [5] }).mediaElements.contains 5
        = true :=
  ⟨C3_detached_set_permanent.1 { mediaElements := [], disconnectedElements := [5] } 5
      [ContentTS.ACEvent.attach 7] (by decide),
   C3_detached_set_permanent.2 { mediaElements := [], disconnectedElements := [5] } 5
      (by decide)⟩

/-- C4: when the push to the tab fails (`pushOk = false`), the
`UPDATE_SETTINGS` handler still responds `success: true` with a warning,
the persisted state is the same as when the push succeeds (the write is
never rolled back — it happens before the push is attempted), and a
subsequent `GET_SETTINGS` for the same key returns the persisted settings
(merged over the defaults). -/
theorem C4_update_push_failure (st : Background.SiteSettings) (key : String)
    (s : Background.StoredSettings) :
    (Background.updateSettingsHandler st key s false).2.success = true ∧
    (Background.updateSettingsHandler st key s false).2.warning.isSome = true ∧
    (Background.updateSettingsHandler st key s false).1
      = (Background.updateSettingsHandler st key s true).1 ∧
    Background.getSettingsHandler (Background.updateSettingsHandler st key s false).1 key
      = Background.mergeDefaults s := by
  refine ⟨rfl, rfl, rfl, ?_⟩
  simp [Background.updateSettingsHandler, Background.getSettingsHandler,
    lookupAssoc_cons_self]

/-- C5: when tab `t` closes, the `tabs.onRemoved` listener deletes any entry
under the synthetic key `tab-<t>` from both the in-memory cache and the
durable storage document (which the listener rewrites from the cache),
assuming the durable document was in sync with the cache beforehand. -/
theorem C5_tab_close_cleanup (st : Background.BgState) (t : ℕ)
    (hsync : st.storage = st.cache) :
    lookupAssoc (Background.onTabRemoved t st).cache (Background.tabKey t) = none ∧
    lookupAssoc (Background.onTabRemoved t st).storage (Background.tabKey t) = none := by
  unfold Background.onTabRemoved
  by_cases h : (lookupAssoc st.cache (Background.tabKey t)).isSome
  · simp [h, lookupAssoc_removeAssoc_self]
  · have hnone : lookupAssoc st.cache (Background.tabKey t) = none := by
      cases hh : lookupAssoc st.cache (Background.tabKey t)
      · rfl
      · rw [hh] at h
        simp at h
    simp [h, hnone, hsync]

/-- C5 witness: the cleanup theorem applied at a concrete state holding an
entry for the synthetic key of tab 3. -/
theorem C5_witness :
    lookupAssoc (Background.onTabRemoved 3
      { cache := [(Background.tabKey 3,
          { enabled := some true, ratio := some 4, threshold := some (-20),
            attack := none, release := none, outputGain := none })],
        storage := [(Background.tabKey 3,
          { enabled := some true, ratio := some 4, threshold := some (-20),
            attack := none, release := none, outputGain := none })] }).cache
      (Background.tabKey 3) = none ∧
    lookupAssoc (Background.onTabRemoved 3
      { cache := [(Background.tabKey 3,
          { enabled := some true, ratio := some 4, threshold := some (-20),
            attack := none, release := none, outputGain := none })],
        storage := [(Background.tabKey 3,
          { enabled := some true, ratio := some 4, threshold := some (-20),
            attack := none, release := none, outputGain := none })] }).storage
      (Background.tabKey 3) = none :=
  C5_tab_close_cleanup
    { cache := [(Background.tabKey 3,
        { enabled := some true, ratio := some 4, threshold := some (-20),
          attack := none, release := none, outputGain := none })],
      storage := [(Background.tabKey 3,
        { enabled := some true, ratio := some 4, threshold := some (-20),
          attack := none, release := none, outputGain := none })] } 3 rfl

/-- C6: for a key with no stored record, the `GET_SETTINGS` handler returns
exactly the default settings (and is total, so it never fails); for a key
with a stored record, it returns the stored value merged over the defaults,
so every field is present. -/
theorem C6_get_returns_defaults (st : Background.SiteSettings) (key : String) :
    (lookupAssoc st key = none →
      Background.getSettingsHandler st key = Background.DEFAULT_SETTINGS) ∧
    (∀ p, lookupAssoc st key = some p →
      Background.getSettingsHandler st key = Background.mergeDefaults p) := by
  constructor
  · intro h
    simp [Background.getSettingsHandler, h]
  · intro p h
    simp [Background.getSettingsHandler, h]

/-- C6 witness: the handler at an empty store returns the defaults, and at
a store holding a partial record for the key it returns that record merged
over the defaults. -/
theorem C6_witness :
    Background.getSettingsHandler [] "example.com" = Background.DEFAULT_SETTINGS ∧
    Background.getSettingsHandler
        [("example.com",
          { enabled := some false, ratio := some 8, threshold := none,
            attack := none, release := none, outputGain := some 3 })] "example.com"
      = Background.mergeDefaults
          { enabled := some false, ratio := some 8, threshold := none,
            attack := none, release := none, outputGain := some 3 } :=
  ⟨(C6_get_returns_defaults [] "example.com").1 rfl,
   (C6_get_returns_defaults
        [("example.com",
          { enabled := some false, ratio := some 8, threshold := none,
            attack := none, release := none, outputGain := some 3 })] "example.com").2
      _ (lookupAssoc_cons_self [] "example.com" _)⟩

/-- C7: the `RESET_SETTINGS` handler removes the key from the store (so a
later `GET_SETTINGS` returns the defaults), pushes the default settings to
the tab in a `SETTINGS_UPDATED` notification (the `.2.1` component), and
responds with the default settings — whether or not the push succeeds. -/
theorem C7_reset_settings (st : Background.SiteSettings) (key : String) (pushOk : Bool) :
    Background.getSettingsHandler (Background.resetSettingsHandler st key pushOk).1 key
      = Background.DEFAULT_SETTINGS ∧
    (Background.resetSettingsHandler st key pushOk).2.1 = Background.DEFAULT_SETTINGS ∧
    (Background.resetSettingsHandler st key pushOk).2.2.settings
      = Background.DEFAULT_SETTINGS := by
  refine ⟨?_, rfl, ?_⟩
  · simp [Background.resetSettingsHandler, Background.getSettingsHandler,
      lookupAssoc_removeAssoc_self]
  · cases pushOk <;> rfl

/-- C8: the key resolver maps `http:`/`https:` addresses to their hostname,
`file:` addresses to the full address, and addresses with any other scheme
to `null`; in the `null` case the popup substitutes the synthetic per-tab
key `tab-<id>`. -/
theorem C8_key_resolver (u : Popup.Url) (t : ℕ) :
    ((Popup.jsStartsWith u.raw "http:" = true ∨ Popup.jsStartsWith u.raw "https:" = true) →
      Popup.getKeyFromUrl u = some u.hostname) ∧
    (Popup.jsStartsWith u.raw "http:" = false → Popup.jsStartsWith u.raw "https:" = false →
      Popup.jsStartsWith u.raw "file:" = true →
      Popup.getKeyFromUrl u = some u.raw) ∧
    (Popup.jsStartsWith u.raw "http:" = false → Popup.jsStartsWith u.raw "https:" = false →
      Popup.jsStartsWith u.raw "file:" = false →
      Popup.getKeyFromUrl u = none ∧
        Popup.resolveSettingsKey u t = Background.tabKey t) := by
  refine ⟨?_, ?_, ?_⟩
  · rintro (h | h) <;> simp [Popup.getKeyFromUrl, h]
  · intro h1 h2 h3
    simp [Popup.getKeyFromUrl, h1, h2, h3]
  · intro h1 h2 h3
    constructor
    · simp [Popup.getKeyFromUrl, h1, h2, h3]
    · simp [Popup.resolveSettingsKey, Popup.getKeyFromUrl, h1, h2, h3]

/-- C8 witness: the resolver applied to one address of each scheme class:
an `https:` page maps to its hostname, a `file:` address maps to the full
address, and `about:blank` maps to `null`, for which the popup falls back
to the synthetic key of tab 7. -/
theorem C8_witness :
    Popup.getKeyFromUrl { raw := "https://www.example.com/watch", hostname := "www.example.com" }
      = some "www.example.com" ∧
    Popup.getKeyFromUrl { raw := "file:///home/user/a.mp4", hostname := "" }
      = some "file:///home/user/a.mp4" ∧
    Popup.getKeyFromUrl { raw := "about:blank", hostname := "" } = none ∧
    Popup.resolveSettingsKey { raw := "about:blank", hostname := "" } 7
      = Background.tabKey 7 :=
  ⟨(C8_key_resolver { raw := "https://www.example.com/watch", hostname := "www.example.com" } 0).1
      (Or.inr (by decide)),
   (C8_key_resolver { raw := "file:///home/user/a.mp4", hostname := "" } 0).2.1
      (by decide) (by decide) (by decide),
   ((C8_key_resolver { raw := "about:blank", hostname := "" } 7).2.2
      (by decide) (by decide) (by decide)).1,
   ((C8_key_resolver { raw := "about:blank", hostname := "" } 7).2.2
      (by decide) (by decide) (by decide)).2⟩

/-- C9: a metering tick at which no attached media element is playing sends
no `METER_UPDATE` message; when the popup is listening and at least one
element is playing, a single message is sent whose level is the maximum
level across the playing elements and whose reduction is the maximum
absolute compressor reduction across the playing elements. -/
theorem C9_meter_update (po : Bool) (es : List ContentJS.MediaElem) :
    ((∀ e ∈ es, e.paused = true) → ContentJS.sendLevelData po es = none) ∧
    (po = true → (∃ e ∈ es, e.paused = false) →
      (ContentJS.sendLevelData po es).isSome = true) ∧
    (∀ m, ContentJS.sendLevelData po es = some m →
      (∃ e ∈ es, e.paused = false ∧ m.level = e.level) ∧
      (∀ e ∈ es, e.paused = false → e.level ≤ m.level) ∧
      (∃ e ∈ es, e.paused = false ∧ m.reduction = |e.reduction|) ∧
      (∀ e ∈ es, e.paused = false → |e.reduction| ≤ m.reduction)) := by
  refine ⟨?_, ?_, ?_⟩
  · intro hall
    unfold ContentJS.sendLevelData
    by_cases hg : (!po || es.isEmpty) = true
    · rw [if_pos hg]
    · rw [if_neg hg]
      have hany : es.any (fun e => !e.paused) = false := by
        simp only [List.any_eq_false]
        intro e he
        simp [hall e he]
      have hact : (es.foldl ContentJS.meterStep (none, 0, false)).2.2 = false := by
        rw [ContentJS.meter_act]
        simp [hany]
      simp [hact]
  · intro hpo ⟨e, he, hp⟩
    have hne : es ≠ [] := by
      intro h
      rw [h] at he
      cases he
    have hg : (!po || es.isEmpty) = false := by
      simp [hpo, List.isEmpty_iff, hne]
    have hany : es.any (fun e => !e.paused) = true :=
      List.any_eq_true.mpr ⟨e, he, by simp [hp]⟩
    have hact : (es.foldl ContentJS.meterStep (none, 0, false)).2.2 = true := by
      rw [ContentJS.meter_act]
      simp [hany]
    unfold ContentJS.sendLevelData
    simp [hg, hact]
  · intro m hm
    unfold ContentJS.sendLevelData at hm
    by_cases hg : (!po || es.isEmpty) = true
    · rw [if_pos hg] at hm
      cases hm
    · rw [if_neg hg] at hm
      by_cases hact : (es.foldl ContentJS.meterStep (none, 0, false)).2.2 = true
      · rw [if_pos hact] at hm
        have hany : es.any (fun e => !e.paused) = true := by
          have := ContentJS.meter_act es (none, 0, false)
          rw [hact] at this
          simpa using this.symm
        obtain ⟨e₀, he₀, hp₀'⟩ := List.any_eq_true.mp hany
        have hp₀ : e₀.paused = false := by simpa using hp₀'
        -- the maximum level is attained and bounds every playing element
        obtain ⟨w, hw, hlw⟩ :=
          ContentJS.meter_lvl_ub es (none, 0, false) e₀ he₀ hp₀
        have hmeq :
            ({ level := (es.foldl ContentJS.meterStep (none, 0, false)).1.getD (-60),
               reduction := (es.foldl ContentJS.meterStep (none, 0, false)).2.1 }
              : ContentJS.MeterMsg) = m :=
          Option.some.inj hm
        have hmlevel : m.level = w := by
          rw [← hmeq]
          simp [hw]
        have hmred : m.reduction = (es.foldl ContentJS.meterStep (none, 0, false)).2.1 := by
          rw [← hmeq]
        refine ⟨?_, ?_, ?_, ?_⟩
        · rcases ContentJS.meter_lvl_mem es (none, 0, false) w hw with ⟨v, hv, _⟩ | ⟨e, he, hp, hv⟩
          · cases hv
          · exact ⟨e, he, hp, by rw [hmlevel, hv]⟩
        · intro e he hp
          obtain ⟨w', hw', hlw'⟩ := ContentJS.meter_lvl_ub es (none, 0, false) e he hp
          rw [hw] at hw'
          cases hw'
          rw [hmlevel]
          exact hlw'
        · rcases ContentJS.meter_red_mem es (none, 0, false) with hz | ⟨e, he, hp, hv⟩
          · refine ⟨e₀, he₀, hp₀, ?_⟩
            have hub := ContentJS.meter_red_ub es (none, 0, false) e₀ he₀ hp₀
            rw [hz] at hub
            have : |e₀.reduction| = 0 := le_antisymm hub (abs_nonneg _)
            rw [hmred, hz, this]
          · exact ⟨e, he, hp, by rw [hmred, hv]⟩
        · intro e he hp
          rw [hmred]
          exact ContentJS.meter_red_ub es (none, 0, false) e he hp
      · rw [if_neg hact] at hm
        cases hm

/-- C9 witness: the theorem applied at concrete ticks — a tick whose only
element is paused sends nothing, and a tick with one playing element at
level −12 dB and raw reduction −3 sends a message bounding that element's
level and reduction. -/
theorem C9_witness :
    ContentJS.sendLevelData true
      [{ paused := true, level := 0, reduction := 0 }] = none ∧
    (∀ e ∈ [({ paused := false, level := -12, reduction := -3 } : ContentJS.MediaElem)],
      e.paused = false →
        e.level ≤ (({ level := -12, reduction := 3 } : ContentJS.MeterMsg)).level) ∧
    (∀ e ∈ [({ paused := false, level := -12, reduction := -3 } : ContentJS.MediaElem)],
      e.paused = false →
        |e.reduction| ≤ (({ level := -12, reduction := 3 } : ContentJS.MeterMsg)).reduction) :=
  ⟨(C9_meter_update true [{ paused := true, level := 0, reduction := 0 }]).1
      (by decide),
   ((C9_meter_update true [{ paused := false, level := -12, reduction := -3 }]).2.2
      { level := -12, reduction := 3 } (by decide)).2.1,
   ((C9_meter_update true [{ paused := false, level := -12, reduction := -3 }]).2.2
      { level := -12, reduction := 3 } (by decide)).2.2.2⟩

/-- C10: `validateSettings` computes each numeric field as
`Number(value) || default`, so the in-range value `0` is treated as absent:
saving settings with `attack = 0` ms and `release = 0` ms (both inside
their documented ranges) and reading them back yields the defaults
`attack = 5` and `release = 50` instead of the supplied `0`. -/
theorem C10_zero_treated_as_absent :
    (SettingsManager.getSettings
      (SettingsManager.saveSettings [] "example.com"
        { enabled := true, threshold := -24, ratio := 4, attack := 0,
          release := 0, gain := 0 }) "example.com").attack = 5 ∧
    (SettingsManager.getSettings
      (SettingsManager.saveSettings [] "example.com"
        { enabled := true, threshold := -24, ratio := 4, attack := 0,
          release := 0, gain := 0 }) "example.com").release = 50 ∧
    (SettingsManager.validateSettings
      { enabled := true, threshold := -24, ratio := 4, attack := 0,
        release := 0, gain := 0 }).attack = 5 ∧
    (SettingsManager.validateSettings
      { enabled := true, threshold := -24, ratio := 4, attack := 0,
        release := 0, gain := 0 }).release = 50 := by
  decide
